import Mathlib

/-!
Shallow embedding of the configuration logic of the nwb-one-blog repository:
the single file of executable configuration, src/next.config.js, and the
frontmatter shape of the MDX blog posts under src/data/blog (plus the one
unnamed post file). Each definition is translated from the source file it
names; theorems settle the specification claims about them.
-/

open List

/--
Embeds the expression process.env.ANALYZE === "true" on line 2 of
next.config.js: the value of the enabled option handed to the
@next/bundle-analyzer wrapper. The environment variable may be absent,
hence the Option argument; the JS strict equality of an absent variable
(undefined) with a string is false.
-/
def analyzerEnabled (analyze : Option String) : Bool :=
  analyze == some "true"

/-- One entry of the array returned by the redirects() function of
next.config.js: a source path, a destination URL and a permanent flag. -/
structure Redirect where
  source : String
  destination : String
  permanent : Bool
deriving DecidableEq

/-- Embeds the array returned by the redirects() function of next.config.js
(lines 11 to 56), entry for entry and in order. -/
def redirects : List Redirect :=
  [{ source := "/blog/auditing-dotnet-entity-framework-core",
     destination := "https://minimalizt.dev/blog/auditing-dotnet-entity-framework-core/",
     permanent := true },
   { source := "/blog/difference-between-datetime-now-utcnow",
     destination := "https://minimalizt.dev/blog/difference-between-datetime-now-utcnow/",
     permanent := true },
   { source := "/blog/entity-framework-query-filters-per-request-configuration",
     destination := "https://minimalizt.dev/blog/entity-framework-query-filters-per-request-configuration/",
     permanent := true },
   { source := "/blog/exception-filter-attribute-dotnet",
     destination := "https://minimalizt.dev/blog/exception-filter-attribute-dotnet/",
     permanent := true },
   { source := "/blog/linq-extensions-pagination-order-by-property-name",
     destination := "https://minimalizt.dev/blog/linq-extensions-pagination-order-by-property-name/",
     permanent := true },
   { source := "/blog/openid-connect-dotnet-5",
     destination := "https://minimalizt.dev/blog/openid-connect-dotnet-5/",
     permanent := true },
   { source := "/blog/set-up-automapper-dotnet-core",
     destination := "https://minimalizt.dev/blog/set-up-automapper-dotnet-core/",
     permanent := true },
   { source := "/blog/swagger-api-versioning-dotnet-core",
     destination := "https://minimalizt.dev/blog/swagger-api-versioning-dotnet-core/",
     permanent := true }]

/-- Whether a route source string is a literal path for the Next.js route
matcher: it contains none of the characters that introduce a dynamic segment,
a wildcard or a regex group or modifier in a route pattern. -/
def isLiteralPath (s : String) : Bool :=
  s.toList.all fun c =>
    !(c == ':') && !(c == '*') && !(c == '(') && !(c == ')') &&
    !(c == '+') && !(c == '?')

/-- Claim C2: the enabled option handed to the bundle analyzer wrapper is true
exactly when the ANALYZE environment variable is the string "true"; for any
other value, or when the variable is absent, it is false. -/
theorem analyzerEnabled_iff_analyze_true (a : Option String) :
    analyzerEnabled a = true ↔ a = some "true" := by
  cases a with
  | none => simp [analyzerEnabled]
  | some s => simp [analyzerEnabled]

/-- Claim C1: the redirect list has exactly 8 entries, every entry has its
permanent flag set, and the (source, destination) pairs are exactly the stated
ones, each destination an absolute URL on https://minimalizt.dev. -/
theorem redirects_permanent_exact_destinations :
    redirects.length = 8 ∧
    redirects.all (fun r => r.permanent) = true ∧
    redirects.map (fun r => (r.source, r.destination)) =
      [("/blog/auditing-dotnet-entity-framework-core",
        "https://minimalizt.dev/blog/auditing-dotnet-entity-framework-core/"),
       ("/blog/difference-between-datetime-now-utcnow",
        "https://minimalizt.dev/blog/difference-between-datetime-now-utcnow/"),
       ("/blog/entity-framework-query-filters-per-request-configuration",
        "https://minimalizt.dev/blog/entity-framework-query-filters-per-request-configuration/"),
       ("/blog/exception-filter-attribute-dotnet",
        "https://minimalizt.dev/blog/exception-filter-attribute-dotnet/"),
       ("/blog/linq-extensions-pagination-order-by-property-name",
        "https://minimalizt.dev/blog/linq-extensions-pagination-order-by-property-name/"),
       ("/blog/openid-connect-dotnet-5",
        "https://minimalizt.dev/blog/openid-connect-dotnet-5/"),
       ("/blog/set-up-automapper-dotnet-core",
        "https://minimalizt.dev/blog/set-up-automapper-dotnet-core/"),
       ("/blog/swagger-api-versioning-dotnet-core",
        "https://minimalizt.dev/blog/swagger-api-versioning-dotnet-core/")] :=
  ⟨rfl, rfl, rfl⟩

/-- Claim C6: every source in the redirect list is a literal path with no
wildcard, pattern or dynamic-segment character, and the sources are pairwise
distinct. -/
theorem redirect_sources_literal_and_distinct :
    redirects.all (fun r => isLiteralPath r.source) = true ∧
    (redirects.map (fun r => r.source)).Nodup := by
  exact ⟨by decide, by decide⟩

/-- Claim C8: every destination in the redirect list is the string
concatenation of https://minimalizt.dev, the source path, and a trailing
slash. -/
theorem redirect_destination_is_source_on_new_domain :
    redirects.all
      (fun r => r.destination == "https://minimalizt.dev" ++ r.source ++ "/") = true := by
  decide

/--
Embeds the test of the binary-asset rule pushed on line 59 of next.config.js:
the case-insensitive anchored regex matching file names that end in .png,
.jpg, .jpeg, .gif or .mp4. A file name is given as its list of characters;
the case-insensitive flag folds the name to lower case before the (already
lower-case) alternatives are compared against its end.
-/
def imageRuleTest (s : List Char) : Bool :=
  decide (".png".toList <:+ s.map Char.toLower) ||
  decide (".jpg".toList <:+ s.map Char.toLower) ||
  decide (".jpeg".toList <:+ s.map Char.toLower) ||
  decide (".gif".toList <:+ s.map Char.toLower) ||
  decide (".mp4".toList <:+ s.map Char.toLower)

/-- Embeds the test of the svg rule pushed on line 72 of next.config.js: the
case-sensitive anchored regex matching file names that end in .svg. -/
def svgRuleTest (s : List Char) : Bool :=
  decide (".svg".toList <:+ s)

/-- The options object of a loader entry in a webpack rule, as used by the
file-loader entry of next.config.js (publicPath and name). -/
structure LoaderOptions where
  publicPath : String
  name : String
deriving DecidableEq

/-- One element of the use array of a webpack rule: a loader, given by name,
with an optional options object. -/
structure UseEntry where
  loader : String
  options : Option LoaderOptions
deriving DecidableEq

/-- A webpack module rule as pushed by next.config.js: a test on the file
name and a use array. -/
structure Rule where
  test : List Char → Bool
  use : List UseEntry

/-- Embeds the binary-asset rule pushed first by the webpack function of
next.config.js (lines 58 to 69): file-loader with publicPath /_next and name
static/media/[name].[hash].[ext]. -/
def imageRule : Rule :=
  { test := imageRuleTest,
    use := [{ loader := "file-loader",
              options := some { publicPath := "/_next",
                                name := "static/media/[name].[hash].[ext]" } }] }

/-- Embeds the svg rule pushed second by the webpack function of
next.config.js (lines 71 to 74): the @svgr/webpack loader with no options. -/
def svgRule : Rule :=
  { test := svgRuleTest,
    use := [{ loader := "@svgr/webpack", options := none }] }

/-- Embeds the four alias bindings of the Object.assign call on lines 78 to 83
of next.config.js, in source order. -/
def preactAliases : List (String × String) :=
  [("react/jsx-runtime.js", "preact/compat/jsx-runtime"),
   ("react", "preact/compat"),
   ("react-dom/test-utils", "preact/test-utils"),
   ("react-dom", "preact/compat")]

/-- Setting one property on a JS object modelled as an ordered association
list: an existing key keeps its position and receives the new value, a new
key is appended at the end. -/
def setKey (target : List (String × String)) (k v : String) :
    List (String × String) :=
  if target.any (fun p => p.1 == k) then
    target.map fun p => if p.1 == k then (k, v) else p
  else
    target ++ [(k, v)]

/-- The semantics of Object.assign(target, source) on string-valued
properties: each property of source is set on target, in order. -/
def objAssign (target source : List (String × String)) :
    List (String × String) :=
  source.foldl (fun acc p => setKey acc p.1 p.2) target

/-- The slice of a webpack configuration object that the webpack function of
next.config.js reads or writes: config.module.rules and config.resolve.alias.
The rest field stands for every other property of the configuration object,
which the function never touches. -/
structure WebpackConfig (ρ : Type) where
  moduleRules : List Rule
  resolveAlias : List (String × String)
  rest : ρ

/-- Embeds the webpack function of next.config.js (lines 57 to 87): the two
rules are pushed onto config.module.rules in order, then, when dev and
isServer are both false, the preact aliases are assigned onto
config.resolve.alias, and the configuration is returned. -/
def webpackFn {ρ : Type} (config : WebpackConfig ρ) (dev isServer : Bool) :
    WebpackConfig ρ :=
  let c := { config with
             moduleRules := config.moduleRules ++ [imageRule, svgRule] }
  if !dev && !isServer then
    { c with resolveAlias := objAssign c.resolveAlias preactAliases }
  else
    c

/-- A suffix whose lower-case image is lsuf yields lsuf as a suffix of the
lower-case image of any list ending in that suffix. -/
theorem lower_suffix_of_append (t suf lsuf : List Char)
    (h : suf.map Char.toLower = lsuf) :
    lsuf <:+ (t ++ suf).map Char.toLower := by
  rw [List.map_append, h]
  exact List.suffix_append _ _

/-- A file name ending in a suffix that lower-cases to one of the five image
extensions passes the binary-asset test. -/
theorem imageRuleTest_append_eq_true (t suf : List Char)
    (h : suf.map Char.toLower = ".png".toList ∨
         suf.map Char.toLower = ".jpg".toList ∨
         suf.map Char.toLower = ".jpeg".toList ∨
         suf.map Char.toLower = ".gif".toList ∨
         suf.map Char.toLower = ".mp4".toList) :
    imageRuleTest (t ++ suf) = true := by
  simp only [imageRuleTest, Bool.or_eq_true, decide_eq_true_eq]
  rcases h with h | h | h | h | h
  · exact Or.inl (Or.inl (Or.inl (Or.inl (lower_suffix_of_append t suf _ h))))
  · exact Or.inl (Or.inl (Or.inl (Or.inr (lower_suffix_of_append t suf _ h))))
  · exact Or.inl (Or.inl (Or.inr (lower_suffix_of_append t suf _ h)))
  · exact Or.inl (Or.inr (lower_suffix_of_append t suf _ h))
  · exact Or.inr (lower_suffix_of_append t suf _ h)

/-- A file name whose lower-case image ends in .svg fails the binary-asset
test: none of the five image extensions can be a suffix of a list whose last
four characters are .svg. -/
theorem imageRuleTest_eq_false_of_lower_svg (s : List Char)
    (h : ∃ u, s.map Char.toLower = u ++ ".svg".toList) :
    imageRuleTest s = false := by
  obtain ⟨u, hu⟩ := h
  apply Bool.eq_false_iff.mpr
  intro hc
  simp only [imageRuleTest, Bool.or_eq_true, decide_eq_true_eq, hu] at hc
  have hsvg : ".svg".toList <:+ u ++ ".svg".toList := List.suffix_append _ _
  rcases hc with (((h1 | h1) | h1) | h1) | h1
  · exact absurd (List.suffix_of_suffix_length_le hsvg h1 (by decide)) (by decide)
  · exact absurd (List.suffix_of_suffix_length_le hsvg h1 (by decide)) (by decide)
  · exact absurd (List.suffix_of_suffix_length_le hsvg h1 (by decide)) (by decide)
  · exact absurd (List.suffix_of_suffix_length_le hsvg h1 (by decide)) (by decide)
  · exact absurd (List.suffix_of_suffix_length_le hsvg h1 (by decide)) (by decide)

/-- Claim C3: every file name ending in .png, .jpg, .jpeg, .gif or .mp4
matches the binary-asset rule, and that rule routes such files to file-loader
with name static/media/[name].[hash].[ext] and publicPath /_next. -/
theorem image_files_match_binary_asset_rule (t : List Char) :
    imageRuleTest (t ++ ".png".toList) = true ∧
    imageRuleTest (t ++ ".jpg".toList) = true ∧
    imageRuleTest (t ++ ".jpeg".toList) = true ∧
    imageRuleTest (t ++ ".gif".toList) = true ∧
    imageRuleTest (t ++ ".mp4".toList) = true ∧
    imageRule.test = imageRuleTest ∧
    imageRule.use = [{ loader := "file-loader",
                       options := some { publicPath := "/_next",
                                         name := "static/media/[name].[hash].[ext]" } }] :=
  ⟨imageRuleTest_append_eq_true t _ (Or.inl (by decide)),
   imageRuleTest_append_eq_true t _ (Or.inr (Or.inl (by decide))),
   imageRuleTest_append_eq_true t _ (Or.inr (Or.inr (Or.inl (by decide)))),
   imageRuleTest_append_eq_true t _ (Or.inr (Or.inr (Or.inr (Or.inl (by decide))))),
   imageRuleTest_append_eq_true t _ (Or.inr (Or.inr (Or.inr (Or.inr (by decide))))),
   rfl, rfl⟩

/-- Claim C4: a file name matching the svg rule is routed to the
@svgr/webpack transform and does not match the binary-asset rule. -/
theorem svg_files_bypass_binary_asset_rule (s : List Char)
    (h : svgRuleTest s = true) :
    imageRuleTest s = false ∧
    svgRule.test = svgRuleTest ∧
    svgRule.use = [{ loader := "@svgr/webpack", options := none }] := by
  have hsuf : ".svg".toList <:+ s := by
    simpa [svgRuleTest] using h
  obtain ⟨u, rfl⟩ := hsuf
  refine ⟨?_, rfl, rfl⟩
  exact imageRuleTest_eq_false_of_lower_svg _
    ⟨u.map Char.toLower,
     by rw [List.map_append,
            show (".svg".toList).map Char.toLower = ".svg".toList from by decide]⟩

/-- Witness for claim C4 at the concrete file name logo.svg. -/
theorem svg_files_bypass_binary_asset_rule_witness :
    svgRuleTest "logo.svg".toList = true ∧
    imageRuleTest "logo.svg".toList = false :=
  ⟨by decide, (svg_files_bypass_binary_asset_rule "logo.svg".toList (by decide)).1⟩

/-- Claim C9: a file name ending in the upper-case extension .PNG or .JPG
matches the case-insensitive binary-asset rule, while a file name ending in
.SVG matches neither the case-sensitive svg rule nor the binary-asset rule. -/
theorem uppercase_extension_rule_matching (t : List Char) :
    imageRuleTest (t ++ ".PNG".toList) = true ∧
    imageRuleTest (t ++ ".JPG".toList) = true ∧
    svgRuleTest (t ++ ".SVG".toList) = false ∧
    imageRuleTest (t ++ ".SVG".toList) = false := by
  refine ⟨imageRuleTest_append_eq_true t _ (Or.inl (by decide)),
          imageRuleTest_append_eq_true t _ (Or.inr (Or.inl (by decide))),
          ?_, ?_⟩
  · apply Bool.eq_false_iff.mpr
    intro hc
    simp only [svgRuleTest, decide_eq_true_eq] at hc
    have h2 : ".SVG".toList <:+ t ++ ".SVG".toList := List.suffix_append _ _
    exact absurd (List.suffix_of_suffix_length_le hc h2 (by decide)) (by decide)
  · exact imageRuleTest_eq_false_of_lower_svg _
      ⟨t.map Char.toLower,
       by rw [List.map_append,
              show (".SVG".toList).map Char.toLower = ".svg".toList from by decide]⟩

/-- Claim C5: the four preact resolve aliases are added exactly when dev and
isServer are both false; in every other case, config.resolve.alias is
returned unchanged. -/
theorem preact_aliases_only_in_client_production {ρ : Type}
    (cfg : WebpackConfig ρ) (dev isServer : Bool) :
    (webpackFn cfg dev isServer).resolveAlias =
      (if !dev && !isServer then objAssign cfg.resolveAlias preactAliases
       else cfg.resolveAlias) := by
  cases dev <;> cases isServer <;> rfl

/-- Claim C10: the webpack function returns the configuration with exactly the
two rules appended to module.rules in order, resolve.alias updated by the
alias assignment exactly when dev and isServer are both false, and every
other field unchanged. -/
theorem webpackFn_frame {ρ : Type} (cfg : WebpackConfig ρ)
    (dev isServer : Bool) :
    (webpackFn cfg dev isServer).moduleRules =
      cfg.moduleRules ++ [imageRule, svgRule] ∧
    (webpackFn cfg dev isServer).resolveAlias =
      (if !dev && !isServer then objAssign cfg.resolveAlias preactAliases
       else cfg.resolveAlias) ∧
    (webpackFn cfg dev isServer).rest = cfg.rest := by
  cases dev <;> cases isServer <;> exact ⟨rfl, rfl, rfl⟩

/-- A YAML frontmatter value as used by the blog posts of this repository: a
quoted string, a list of quoted strings, or a boolean. -/
inductive FmValue where
  | str : String → FmValue
  | strList : List String → FmValue
  | bool : Bool → FmValue
deriving DecidableEq

/-- An MDX blog post file: its frontmatter, as the ordered list of
(key, value) pairs between the two --- delimiters, and the first non-blank
line of the markdown body that follows the closing delimiter (the remainder
of the body is elided; only its presence matters to the claims). -/
structure BlogPostFile where
  frontmatter : List (String × FmValue)
  bodyHead : String
deriving DecidableEq

/-- Embeds src/data/blog/entity-framework-query-filters-per-request-configuration.mdx. -/
def entityFrameworkQueryFiltersPost : BlogPostFile :=
  { frontmatter :=
      [("title", FmValue.str
          "Entity Framework global query filters - per-request configuration"),
       ("date", FmValue.str "2021-05-10"),
       ("tags", FmValue.strList ["asp-net-core", "dotnet", "entity-framework"]),
       ("draft", FmValue.bool false),
       ("summary", FmValue.str
          "Learn what Entity Framework global query filters are and how to configure it per request.")],
    bodyHead := "## What are Entity Framework global query filters?" }

/-- Embeds src/data/blog/linq-extensions-pagination-order-by-property-name.mdx. -/
def linqExtensionsPaginationPost : BlogPostFile :=
  { frontmatter :=
      [("title", FmValue.str
          "LINQ extensions for pagination and ordering by property name in Entity Framework"),
       ("date", FmValue.str "2021-05-17"),
       ("tags", FmValue.strList
          ["asp-net-core", "dotnet", "linq", "entity-framework"]),
       ("draft", FmValue.bool false),
       ("summary", FmValue.str
          "Learn how to create LINQ extensions that will simplify pagination and ordering by property names in Entity Framework.")],
    bodyHead := "## Why another extension?" }

/-- Embeds src/data/blog/set-up-automapper-dotnet-core.mdx. -/
def setUpAutomapperPost : BlogPostFile :=
  { frontmatter :=
      [("title", FmValue.str "Simple AutoMapper setup in .NET 5"),
       ("date", FmValue.str "2021-05-24"),
       ("tags", FmValue.strList ["asp-net-core", "dotnet", "automapper"]),
       ("draft", FmValue.bool false),
       ("summary", FmValue.str
          "Learn one of the simplest ways to configure AutoMapper in .NET 5")],
    bodyHead := "## Why use AutoMapper?" }

/-- Embeds src/data/blog/swagger-api-versioning-dotnet-core.mdx. -/
def swaggerApiVersioningPost : BlogPostFile :=
  { frontmatter :=
      [("title", FmValue.str
          "Set up Swagger and API versioning in .NET 5 web API"),
       ("date", FmValue.str "2021-05-06"),
       ("tags", FmValue.strList ["asp-net-core", "dotnet", "swagger"]),
       ("draft", FmValue.bool false),
       ("summary", FmValue.str
          "API versioning and Swagger goes hand in hand when developing APIs. Learn how to easily set it up.")],
    bodyHead := "If you are developing any API, having good documentation and proper versioning is absolutely crucial. In this blog post I will show how to set up" }

/-- Embeds the unnamed blog post source file (the OpenIddict post). -/
def openiddictPost : BlogPostFile :=
  { frontmatter :=
      [("title", FmValue.str
          "Set up token authentication with OpenIddict in .NET 5"),
       ("date", FmValue.str "2021-06-05"),
       ("tags", FmValue.strList
          ["asp-net-core", "dotnet", "oidc", "authentication"]),
       ("draft", FmValue.bool false),
       ("summary", FmValue.str
          "Learn how to set up an OpenID Connect server using OpenIddict in .NET 5.")],
    bodyHead := "## What is OpenIddict?" }

/-- The five MDX blog post files of the repository. -/
def blogPosts : List BlogPostFile :=
  [entityFrameworkQueryFiltersPost,
   linqExtensionsPaginationPost,
   setUpAutomapperPost,
   swaggerApiVersioningPost,
   openiddictPost]

/-- The field names of the blog post record shape, in frontmatter order. -/
def blogPostFields : List String :=
  ["title", "date", "tags", "draft", "summary"]

/-- Claim C7: every blog post file in the repository has a frontmatter that
defines exactly the fields title, date, tags, draft and summary, followed by
a markdown body. -/
theorem blogPosts_conform_to_record_shape :
    blogPosts.all
      (fun p => p.frontmatter.map Prod.fst == blogPostFields &&
                !(p.bodyHead == "")) = true := by
  decide
